import Mathlib

/-!
Verification of the SimpleStepper backend (`simple_stepper.py`): a single
HTTP handler (`SGHandler`) exposing three operations over the inbound rules
of a fixed list of AWS security groups: List (GET), Authorize caller IP
(POST), Clear all (DELETE).

The cloud provider (boto EC2 client) is external to the repository and is
treated as a black box: each operation receives the provider's answers as
explicit arguments (an `Except`-valued rule-set fetch, and oracle functions
for the authorize/revoke calls), and the handler's outgoing provider
requests are returned explicitly so that theorems can speak about which
calls were issued and in which order.
-/

namespace SimpleStepper

/-- One inbound rule as reported by the provider: protocol, port range and
the list of source grants (CIDR strings, in provider-reported order).
Mirrors the fields of a boto `IPPermissions` rule used by the handler. -/
structure IpRule where
  ip_protocol : String
  from_port : Int
  to_port : Int
  grants : List String
deriving Repr, DecidableEq

/-- A security group as reported by the provider: name, identifier and its
rules in provider-reported order. -/
structure SecurityGroup where
  name : String
  id : String
  rules : List IpRule
deriving Repr, DecidableEq

/-- The two failure classes the handler distinguishes:
`responseError` models `boto.exception.EC2ResponseError` (the provider
explicitly rejected the request; carries `exception.error_message`), and
`otherError` models any other raised exception (carries its `__str__`). -/
inductive Ec2Error where
  | responseError (error_message : String)
  | otherError (description : String)
deriving Repr, DecidableEq

/-- Body of the form produced by
`{'status_code': self.get_status(), 'message': ...}` — used both for the
error branches of every operation and for the POST success response. -/
structure StatusMessage where
  status_code : Nat
  message : String
deriving Repr, DecidableEq

/-- One flattened output entry of `parse_security_groups`:
`{'source': str(entry), 'protocol': rule.ip_protocol, 'port': '<from> - <to>'}`. -/
structure RuleOut where
  source : String
  protocol : String
  port : String
deriving Repr, DecidableEq

/-- One per-group object of `parse_security_groups`. -/
structure SGOut where
  name : String
  id : String
  rules : List RuleOut
deriving Repr, DecidableEq

/-- The flattened entry built for grant `entry` of rule `rule` in the inner
double loop of `parse_security_groups`. -/
def ruleEntry (rule : IpRule) (entry : String) : RuleOut :=
  { source := entry
    protocol := rule.ip_protocol
    port := toString rule.from_port ++ " - " ++ toString rule.to_port }

/-- `parse_security_groups` (src/simple_stepper.py lines 59-115): builds one
object per security group, whose `rules` list receives one appended entry
per (rule, grant) pair, iterating rules and grants in provider order. The
imperative `list.append` accumulation is mirrored by `foldl` with `++`. -/
def parse_security_groups (response : List SecurityGroup) : List SGOut :=
  response.foldl
    (fun result raw_security_group =>
      result ++
        [{ name := raw_security_group.name
           id := raw_security_group.id
           rules :=
             raw_security_group.rules.foldl
               (fun acc rule =>
                 rule.grants.foldl
                   (fun acc2 entry => acc2 ++ [ruleEntry rule entry]) acc)
               [] }])
    []

/-- Response of the GET operation: HTTP status plus either the parsed
groups (`finish(json.dumps(parsed_security_groups))`) or an error body. -/
inductive GetBody where
  | ok (results : List SGOut)
  | err (e : StatusMessage)
deriving Repr, DecidableEq

structure GetResponse where
  status : Nat
  body : GetBody
deriving Repr, DecidableEq

/-- `SGHandler.get` (lines 140-163): fetch all configured groups, reshape
with `parse_security_groups`, map `EC2ResponseError` to HTTP 400 with the
provider's own message and any other failure to HTTP 500 with its string
representation. `provider_groups` is the outcome of
`conn.get_all_security_groups(group_ids=self.target_security_group_ids)`. -/
def SGHandler.get (provider_groups : Except Ec2Error (List SecurityGroup)) :
    GetResponse :=
  match provider_groups with
  | .ok sgs => { status := 200, body := .ok (parse_security_groups sgs) }
  | .error (.responseError m) =>
      { status := 400, body := .err { status_code := 400, message := m } }
  | .error (.otherError d) =>
      { status := 500, body := .err { status_code := 500, message := d } }

/-! ### Accumulation helpers -/

theorem foldl_append_singleton {α β : Type} (f : α → β) :
    ∀ (l : List α) (init : List β),
      l.foldl (fun acc x => acc ++ [f x]) init = init ++ l.map f := by
  intro l
  induction l with
  | nil => intro init; simp
  | cons a as ih => intro init; simp [ih]

theorem foldl_append_flat {α β : Type} (f : α → List β) :
    ∀ (l : List α) (init : List β),
      l.foldl (fun acc x => acc ++ f x) init = init ++ l.flatMap f := by
  intro l
  induction l with
  | nil => intro init; simp
  | cons a as ih => intro init; simp [ih]

/-- The nested grant loop of `parse_security_groups` computes, for one
group, exactly the flattening of (rule, grant) pairs in order. -/
theorem inner_rules_flatten (rules : List IpRule) :
    rules.foldl
      (fun acc rule =>
        rule.grants.foldl (fun acc2 entry => acc2 ++ [ruleEntry rule entry]) acc)
      [] =
    rules.flatMap (fun rule => rule.grants.map (ruleEntry rule)) := by
  have hfun :
      (fun (acc : List RuleOut) (rule : IpRule) =>
        rule.grants.foldl (fun acc2 entry => acc2 ++ [ruleEntry rule entry]) acc) =
      fun acc rule => acc ++ rule.grants.map (ruleEntry rule) := by
    funext acc rule
    exact foldl_append_singleton _ _ _
  rw [hfun]
  simpa using foldl_append_flat
    (fun rule : IpRule => rule.grants.map (ruleEntry rule)) rules []

/-- `parse_security_groups` as a `map`: one output object per group, whose
`rules` list is the order-preserving flattening of (rule, grant) pairs. -/
theorem parse_security_groups_eq_map (response : List SecurityGroup) :
    parse_security_groups response =
      response.map (fun sg =>
        { name := sg.name
          id := sg.id
          rules := sg.rules.flatMap (fun rule => rule.grants.map (ruleEntry rule)) }) := by
  unfold parse_security_groups
  rw [foldl_append_singleton]
  rw [List.nil_append]
  apply List.map_congr_left
  intro sg _
  rw [inner_rules_flatten]

/-! ### Authorize (POST) -/

/-- Python string interpolation of a possibly-`None` value:
`'{0}'.format(None)` renders as the literal string `None`. -/
def pyFormat : Option String → String
  | none => "None"
  | some s => s

/-- Python `str` of a list of strings, as used by
`'... is appended to {sg}'.format(sg=...target_security_group_ids)`:
elements quoted with single quotes, separated by comma-space, in brackets. -/
def pyListRepr (xs : List String) : String :=
  "[" ++ String.intercalate ", " (xs.map (fun s => "\x27" ++ s ++ "\x27")) ++ "]"

/-- Python `str.upper()` on ASCII header names: character-wise
upper-casing. -/
def pyUpper (s : String) : String :=
  String.mk (s.data.map Char.toUpper)

/-- Tornado `HTTPHeaders.get`: header-name lookup is case-insensitive.
Headers are modelled as (name, value) pairs in arrival order. -/
def headerGet (headers : List (String × String)) (name : String) : Option String :=
  (headers.find? (fun h => pyUpper h.fst = pyUpper name)).map Prod.snd

/-- Lines 167-174 of `SGHandler.post`: if any request header's name,
upper-cased, equals `X-FORWARDED-FOR`, use that header's value; otherwise
use `self.request.remote_ip` (the transport-level peer address, which
tornado may report as absent). -/
def determine_remote_ip (headers : List (String × String))
    (peer_ip : Option String) : Option String :=
  if headers.any (fun h => pyUpper h.fst = "X-FORWARDED-FOR") then
    headerGet headers "X-FORWARDED-FOR"
  else
    peer_ip

/-- One `entry.authorize(ip_protocol='tcp', from_port=22, to_port=22,
cidr_ip='<ip>/32')` call issued to the provider for security group
`group_id`. -/
structure AuthReq where
  group_id : String
  ip_protocol : String
  from_port : Int
  to_port : Int
  cidr_ip : String
deriving Repr, DecidableEq

/-- The authorize request built at lines 193-198 for one group. -/
def authReqFor (cidr : String) (sg : SecurityGroup) : AuthReq :=
  { group_id := sg.id, ip_protocol := "tcp", from_port := 22, to_port := 22,
    cidr_ip := cidr }

/-- The `for entry in response: entry.authorize(...)` loop (lines 192-198):
issues one authorize call per returned group, in order, stopping at the
first raised exception. Returns the calls issued (the failing one included)
and the first error, if any. `auth` is the provider's answer to each call. -/
def run_authorize_loop (auth : AuthReq → Except Ec2Error Unit) (cidr : String) :
    List SecurityGroup → List AuthReq × Option Ec2Error
  | [] => ([], none)
  | sg :: rest =>
    let req := authReqFor cidr sg
    match auth req with
    | .ok _ =>
        let out := run_authorize_loop auth cidr rest
        (req :: out.fst, out.snd)
    | .error e => ([req], some e)

/-- Outcome of one POST request: the body and status of the first
`self.finish` call (the one the client receives — tornado sends the
response on the first `finish`, and a second `finish` raises), plus the
authorize calls issued to the provider. -/
structure PostOutcome where
  status : Nat
  first_body : StatusMessage
  auth_requests : List AuthReq
deriving Repr, DecidableEq

/-- Error response shared by the `except` branches of every operation
(e.g. lines 213-229): `EC2ResponseError` maps to 400 with the provider's
`error_message`, any other exception to 500 with its `__str__`. -/
def errorStatusMessage : Ec2Error → StatusMessage
  | .responseError m => { status_code := 400, message := m }
  | .otherError d => { status_code := 500, message := d }

/-- `SGHandler.post` (lines 165-229). `headers`/`peer_ip` determine
`remote_ip`; `provider_groups` is the outcome of
`conn.get_all_security_groups(group_ids=...)`; `auth` answers each
`entry.authorize` call; `configured_ids` is
`tornado.options.options.target_security_group_ids`, used in the success
message.

When `remote_ip` is `None`, the handler finishes a 500 response with the
fixed message but falls through (no early return): it still connects,
fetches the groups and runs the authorize loop with the interpolated CIDR
`None/32`; every later `finish` raises and cannot reach the client, so the
client-visible body stays the 500 one. -/
def SGHandler.post (headers : List (String × String)) (peer_ip : Option String)
    (configured_ids : List String)
    (provider_groups : Except Ec2Error (List SecurityGroup))
    (auth : AuthReq → Except Ec2Error Unit) : PostOutcome :=
  let remote_ip := determine_remote_ip headers peer_ip
  let cidr := pyFormat remote_ip ++ "/32"
  match remote_ip with
  | none =>
      let noIp : StatusMessage :=
        { status_code := 500, message := "Sorry, could not get Your IP Address." }
      match provider_groups with
      | .error _ => { status := 500, first_body := noIp, auth_requests := [] }
      | .ok sgs =>
          { status := 500, first_body := noIp,
            auth_requests := (run_authorize_loop auth cidr sgs).fst }
  | some ip =>
      match provider_groups with
      | .error e =>
          { status := (errorStatusMessage e).status_code,
            first_body := errorStatusMessage e, auth_requests := [] }
      | .ok sgs =>
          let out := run_authorize_loop auth cidr sgs
          match out.snd with
          | none =>
              { status := 200,
                first_body :=
                  { status_code := 200,
                    message := "Your IP " ++ ip ++ " is appended to " ++
                      pyListRepr configured_ids },
                auth_requests := out.fst }
          | some e =>
              { status := (errorStatusMessage e).status_code,
                first_body := errorStatusMessage e, auth_requests := out.fst }

/-- When every authorize call succeeds, the loop issues exactly one request
per returned group, in order, and reports no error. -/
theorem run_authorize_loop_all_ok (auth : AuthReq → Except Ec2Error Unit)
    (cidr : String) (sgs : List SecurityGroup)
    (h : ∀ r, auth r = .ok ()) :
    run_authorize_loop auth cidr sgs = (sgs.map (authReqFor cidr), none) := by
  induction sgs with
  | nil => rfl
  | cons sg rest ih =>
      simp only [run_authorize_loop, h, ih, List.map_cons]

/-- The loop aborts at the first failing authorize call: requests before it
are issued, the failing one is issued, nothing after it is. -/
theorem run_authorize_loop_first_error (auth : AuthReq → Except Ec2Error Unit)
    (cidr : String) (pre : List SecurityGroup) (bad : SecurityGroup)
    (rest : List SecurityGroup) (e : Ec2Error)
    (hpre : ∀ sg ∈ pre, auth (authReqFor cidr sg) = .ok ())
    (hbad : auth (authReqFor cidr bad) = .error e) :
    run_authorize_loop auth cidr (pre ++ bad :: rest) =
      ((pre ++ [bad]).map (authReqFor cidr), some e) := by
  induction pre with
  | nil => simp [run_authorize_loop, hbad]
  | cons sg pre ih =>
      have hsg : auth (authReqFor cidr sg) = .ok () := hpre sg (by simp)
      have hrest : ∀ sg ∈ pre, auth (authReqFor cidr sg) = .ok () := by
        intro x hx
        exact hpre x (by simp [hx])
      simp only [List.cons_append, run_authorize_loop, hsg, List.append_eq,
        ih hrest, List.map_cons]

/-! ### Clear all (DELETE) -/

/-- One `sg.revoke(ip_protocol=..., from_port=..., to_port=..., cidr_ip=...)`
call issued to the provider for security group `group_id`. -/
structure RevokeReq where
  group_id : String
  ip_protocol : String
  from_port : Int
  to_port : Int
  cidr_ip : String
deriving Repr, DecidableEq

/-- One entry appended to `results` at lines 245-252, recorded from the
rule and grant before the corresponding revoke call. -/
structure RemovedEntry where
  ip_protocol : String
  from_port : Int
  to_port : Int
  cidr_ip : String
deriving Repr, DecidableEq

/-- The `results` entry recorded for grant `g` of rule `rule`. -/
def removedEntryFor (rule : IpRule) (g : String) : RemovedEntry :=
  { ip_protocol := rule.ip_protocol, from_port := rule.from_port,
    to_port := rule.to_port, cidr_ip := g }

/-- The revoke call issued for grant `g` of rule `rule` of group `gid`. -/
def revokeReqFor (gid : String) (rule : IpRule) (g : String) : RevokeReq :=
  { group_id := gid, ip_protocol := rule.ip_protocol,
    from_port := rule.from_port, to_port := rule.to_port, cidr_ip := g }

/-- Innermost loop of `SGHandler.delete` (lines 244-258): for each grant of
one rule, append its record to `results`, then issue the revoke call;
a raised exception aborts everything. Returns recorded entries, issued
calls and the first error. -/
def run_revoke_grants (revoke : RevokeReq → Except Ec2Error Unit)
    (gid : String) (rule : IpRule) :
    List String → List RemovedEntry × List RevokeReq × Option Ec2Error
  | [] => ([], [], none)
  | g :: gs =>
    let entry := removedEntryFor rule g
    let req := revokeReqFor gid rule g
    match revoke req with
    | .ok _ =>
        let out := run_revoke_grants revoke gid rule gs
        (entry :: out.fst, req :: out.snd.fst, out.snd.snd)
    | .error e => ([entry], [req], some e)

/-- Middle loop of `SGHandler.delete` (line 243): iterate one group's
rules, aborting at the first error. -/
def run_revoke_rules (revoke : RevokeReq → Except Ec2Error Unit)
    (gid : String) :
    List IpRule → List RemovedEntry × List RevokeReq × Option Ec2Error
  | [] => ([], [], none)
  | rule :: rs =>
    let out := run_revoke_grants revoke gid rule rule.grants
    match out.snd.snd with
    | none =>
        let tail := run_revoke_rules revoke gid rs
        (out.fst ++ tail.fst, out.snd.fst ++ tail.snd.fst, tail.snd.snd)
    | some e => (out.fst, out.snd.fst, some e)

/-- Outer loop of `SGHandler.delete` (line 242): iterate the returned
groups, aborting at the first error. -/
def run_revoke_groups (revoke : RevokeReq → Except Ec2Error Unit) :
    List SecurityGroup → List RemovedEntry × List RevokeReq × Option Ec2Error
  | [] => ([], [], none)
  | sg :: rest =>
    let out := run_revoke_rules revoke sg.id sg.rules
    match out.snd.snd with
    | none =>
        let tail := run_revoke_groups revoke rest
        (out.fst ++ tail.fst, out.snd.fst ++ tail.snd.fst, tail.snd.snd)
    | some e => (out.fst, out.snd.fst, some e)

/-- Body of the DELETE response: the recorded `results` on success, the
two-tier error body otherwise. -/
inductive DeleteBody where
  | ok (results : List RemovedEntry)
  | err (e : StatusMessage)
deriving Repr, DecidableEq

/-- Outcome of one DELETE request: HTTP status, response body, and the
revoke calls issued to the provider. -/
structure DeleteOutcome where
  status : Nat
  body : DeleteBody
  revoke_requests : List RevokeReq
deriving Repr, DecidableEq

/-- `SGHandler.delete` (lines 231-281): fetch all configured groups, then
for every group, rule and grant record the entry and revoke it; on success
finish 200 with the recorded `results`; a raised exception discards the
accumulated local `results` and finishes with the two-tier error body. -/
def SGHandler.delete (provider_groups : Except Ec2Error (List SecurityGroup))
    (revoke : RevokeReq → Except Ec2Error Unit) : DeleteOutcome :=
  match provider_groups with
  | .error e =>
      { status := (errorStatusMessage e).status_code,
        body := .err (errorStatusMessage e), revoke_requests := [] }
  | .ok sgs =>
      let out := run_revoke_groups revoke sgs
      match out.snd.snd with
      | none => { status := 200, body := .ok out.fst, revoke_requests := out.snd.fst }
      | some e =>
          { status := (errorStatusMessage e).status_code,
            body := .err (errorStatusMessage e), revoke_requests := out.snd.fst }

/-- Per-group flattening of recorded entries when every revoke succeeds. -/
def entriesOfGroup (sg : SecurityGroup) : List RemovedEntry :=
  sg.rules.flatMap (fun rule => rule.grants.map (removedEntryFor rule))

/-- Per-group flattening of revoke calls when every revoke succeeds. -/
def reqsOfGroup (sg : SecurityGroup) : List RevokeReq :=
  sg.rules.flatMap (fun rule => rule.grants.map (revokeReqFor sg.id rule))

theorem run_revoke_grants_all_ok (revoke : RevokeReq → Except Ec2Error Unit)
    (gid : String) (rule : IpRule) (gs : List String)
    (h : ∀ r, revoke r = .ok ()) :
    run_revoke_grants revoke gid rule gs =
      (gs.map (removedEntryFor rule), gs.map (revokeReqFor gid rule), none) := by
  induction gs with
  | nil => rfl
  | cons g gs ih => simp only [run_revoke_grants, h, ih, List.map_cons]

theorem run_revoke_rules_all_ok (revoke : RevokeReq → Except Ec2Error Unit)
    (gid : String) (rules : List IpRule)
    (h : ∀ r, revoke r = .ok ()) :
    run_revoke_rules revoke gid rules =
      (rules.flatMap (fun rule => rule.grants.map (removedEntryFor rule)),
       rules.flatMap (fun rule => rule.grants.map (revokeReqFor gid rule)),
       none) := by
  induction rules with
  | nil => rfl
  | cons rule rs ih =>
      simp only [run_revoke_rules, run_revoke_grants_all_ok revoke gid rule _ h,
        ih, List.flatMap_cons]

theorem run_revoke_groups_all_ok (revoke : RevokeReq → Except Ec2Error Unit)
    (sgs : List SecurityGroup)
    (h : ∀ r, revoke r = .ok ()) :
    run_revoke_groups revoke sgs =
      (sgs.flatMap entriesOfGroup, sgs.flatMap reqsOfGroup, none) := by
  induction sgs with
  | nil => rfl
  | cons sg rest ih =>
      simp only [run_revoke_groups, run_revoke_rules_all_ok revoke sg.id _ h,
        ih, List.flatMap_cons, entriesOfGroup, reqsOfGroup]

/-- `SGHandler.delete` when the fetch and every revoke succeed: HTTP 200,
`results` is the in-order flattening of (group, rule, grant) triples, and
exactly the matching revoke calls were issued. -/
theorem delete_all_ok (sgs : List SecurityGroup)
    (revoke : RevokeReq → Except Ec2Error Unit)
    (h : ∀ r, revoke r = .ok ()) :
    SGHandler.delete (.ok sgs) revoke =
      { status := 200, body := .ok (sgs.flatMap entriesOfGroup),
        revoke_requests := sgs.flatMap reqsOfGroup } := by
  simp only [SGHandler.delete, run_revoke_groups_all_ok revoke sgs h]

/-! ### Provider-state model for repeated Clear

The cloud provider is outside the repository (spec §1 treats it as a black
box; §6 fixes its interface). To reason about calling Clear twice, the
effect of one `revoke-inbound-rule(group, protocol, from-port, to-port,
cidr)` call on provider state is modelled from the spec. -/

/-- Whether revoke request `req` addresses rule `rule` of the group with
identifier `gid`: same group id, protocol and port range. -/
def revokeMatches (gid : String) (rule : IpRule) (req : RevokeReq) : Bool :=
  req.group_id == gid && req.ip_protocol == rule.ip_protocol &&
  req.from_port == rule.from_port && req.to_port == rule.to_port

/-- Modelled from the spec: the provider's `revoke-inbound-rule` operation
(black-box interface, spec §6). The requested CIDR grant is removed from
every rule matching the request's group id, protocol and port range; all
other state is unchanged. -/
def applyRevoke (sgs : List SecurityGroup) (req : RevokeReq) :
    List SecurityGroup :=
  sgs.map (fun sg =>
    { sg with
      rules := sg.rules.map (fun rule =>
        { rule with
          grants := rule.grants.filter
            (fun g => !(revokeMatches sg.id rule req && g == req.cidr_ip)) }) })

/-- Folding a list of revoke calls over a provider state filters each
rule's grants by survival of every call in the list. -/
theorem foldl_applyRevoke (L : List RevokeReq) (sgs : List SecurityGroup) :
    L.foldl applyRevoke sgs =
      sgs.map (fun sg =>
        { sg with
          rules := sg.rules.map (fun rule =>
            { rule with
              grants := rule.grants.filter
                (fun g => L.all
                  (fun req => !(revokeMatches sg.id rule req && g == req.cidr_ip))) }) }) := by
  induction L generalizing sgs with
  | nil =>
      simp only [List.foldl_nil, List.all_nil, List.filter_true]
      refine ((List.map_congr_left ?_).trans (List.map_id sgs)).symm
      intro sg _
      cases sg with
      | mk name gid rules =>
          exact congrArg (SecurityGroup.mk name gid)
            ((List.map_congr_left (fun rule _ => by cases rule; rfl)).trans
              (List.map_id rules))
  | cons req L ih =>
      rw [List.foldl_cons, ih, applyRevoke, List.map_map]
      apply List.map_congr_left
      intro sg _
      cases sg with
      | mk name gid rules =>
          simp only [Function.comp_apply, List.map_map]
          refine congrArg (SecurityGroup.mk name gid) ?_
          apply List.map_congr_left
          intro rule _
          cases rule with
          | mk proto fp tp grants =>
              simp only [Function.comp_apply]
              refine congrArg (IpRule.mk proto fp tp) ?_
              rw [List.filter_filter]
              apply List.filter_congr
              intro g _
              simp only [List.all_cons, revokeMatches]
              rw [Bool.and_comm]

/-- The provider state after a Clear in which every revoke succeeded: the
result of applying, in order, every revoke call the DELETE issues on the
current state. -/
def providerAfterClear (sgs : List SecurityGroup) : List SecurityGroup :=
  ((SGHandler.delete (.ok sgs) (fun _ => .ok ())).revoke_requests).foldl
    applyRevoke sgs

/-- After a successful Clear, every rule of every group has no grants. -/
theorem providerAfterClear_grants_nil (sgs : List SecurityGroup) :
    ∀ sg ∈ providerAfterClear sgs, ∀ rule ∈ sg.rules, rule.grants = [] := by
  intro sg' hsg' rule' hrule'
  unfold providerAfterClear at hsg'
  rw [delete_all_ok sgs _ (fun _ => rfl)] at hsg'
  rw [foldl_applyRevoke] at hsg'
  obtain ⟨sg, hsg, rfl⟩ := List.mem_map.mp hsg'
  obtain ⟨rule, hrule, rfl⟩ := List.mem_map.mp hrule'
  rw [List.filter_eq_nil_iff]
  intro g hg
  rw [Bool.not_eq_true]
  rw [List.all_eq_false]
  refine ⟨revokeReqFor sg.id rule g, ?_, ?_⟩
  · rw [List.mem_flatMap]
    refine ⟨sg, hsg, ?_⟩
    rw [reqsOfGroup, List.mem_flatMap]
    exact ⟨rule, hrule, List.mem_map.mpr ⟨g, hg, rfl⟩⟩
  · simp [revokeMatches, revokeReqFor]

/-! ### Failure-path helpers -/

/-- Every authorize call the loop issues carries the interpolated CIDR. -/
theorem run_authorize_loop_cidr (auth : AuthReq → Except Ec2Error Unit)
    (cidr : String) (sgs : List SecurityGroup) :
    ∀ r ∈ (run_authorize_loop auth cidr sgs).fst, r.cidr_ip = cidr := by
  induction sgs with
  | nil => intro r hr; cases hr
  | cons sg rest ih =>
      intro r hr
      cases hauth : auth (authReqFor cidr sg) with
      | ok u =>
          simp only [run_authorize_loop, hauth] at hr
          rcases List.mem_cons.mp hr with h | h
          · rw [h]; rfl
          · exact ih r h
      | error e =>
          simp only [run_authorize_loop, hauth] at hr
          rcases List.mem_cons.mp hr with h | h
          · rw [h]; rfl
          · cases h

/-- The loop issues no authorize call exactly when the provider returned
no group: the first group's call is always attempted. -/
theorem run_authorize_loop_nil_iff (auth : AuthReq → Except Ec2Error Unit)
    (cidr : String) (sgs : List SecurityGroup) :
    (run_authorize_loop auth cidr sgs).fst = [] ↔ sgs = [] := by
  cases sgs with
  | nil => simp [run_authorize_loop]
  | cons sg rest =>
      simp only [run_authorize_loop]
      cases auth (authReqFor cidr sg) <;> simp

theorem run_revoke_grants_ok_on (revoke : RevokeReq → Except Ec2Error Unit)
    (gid : String) (rule : IpRule) (gs : List String)
    (h : ∀ g ∈ gs, revoke (revokeReqFor gid rule g) = .ok ()) :
    run_revoke_grants revoke gid rule gs =
      (gs.map (removedEntryFor rule), gs.map (revokeReqFor gid rule), none) := by
  induction gs with
  | nil => rfl
  | cons g gs ih =>
      have hg : revoke (revokeReqFor gid rule g) = .ok () := h g (by simp)
      have hrest : ∀ x ∈ gs, revoke (revokeReqFor gid rule x) = .ok () := by
        intro x hx
        exact h x (by simp [hx])
      simp only [run_revoke_grants, hg, ih hrest, List.map_cons]

theorem run_revoke_rules_ok_on (revoke : RevokeReq → Except Ec2Error Unit)
    (gid : String) (rules : List IpRule)
    (h : ∀ rule ∈ rules, ∀ g ∈ rule.grants,
      revoke (revokeReqFor gid rule g) = .ok ()) :
    run_revoke_rules revoke gid rules =
      (rules.flatMap (fun rule => rule.grants.map (removedEntryFor rule)),
       rules.flatMap (fun rule => rule.grants.map (revokeReqFor gid rule)),
       none) := by
  induction rules with
  | nil => rfl
  | cons rule rs ih =>
      have hr : ∀ g ∈ rule.grants, revoke (revokeReqFor gid rule g) = .ok () :=
        h rule (by simp)
      have hrest : ∀ r ∈ rs, ∀ g ∈ r.grants, revoke (revokeReqFor gid r g) = .ok () := by
        intro r hrs g hg
        exact h r (by simp [hrs]) g hg
      simp only [run_revoke_rules, run_revoke_grants_ok_on revoke gid rule _ hr,
        ih hrest, List.flatMap_cons]

theorem run_revoke_groups_ok_on (revoke : RevokeReq → Except Ec2Error Unit)
    (sgs : List SecurityGroup)
    (h : ∀ sg ∈ sgs, ∀ rule ∈ sg.rules, ∀ g ∈ rule.grants,
      revoke (revokeReqFor sg.id rule g) = .ok ()) :
    run_revoke_groups revoke sgs =
      (sgs.flatMap entriesOfGroup, sgs.flatMap reqsOfGroup, none) := by
  induction sgs with
  | nil => rfl
  | cons sg rest ih =>
      have hsg : ∀ rule ∈ sg.rules, ∀ g ∈ rule.grants,
          revoke (revokeReqFor sg.id rule g) = .ok () := h sg (by simp)
      have hrest : ∀ x ∈ rest, ∀ rule ∈ x.rules, ∀ g ∈ rule.grants,
          revoke (revokeReqFor x.id rule g) = .ok () := by
        intro x hx rule hrule g hg
        exact h x (by simp [hx]) rule hrule g hg
      simp only [run_revoke_groups, run_revoke_rules_ok_on revoke sg.id _ hsg,
        ih hrest, List.flatMap_cons, entriesOfGroup, reqsOfGroup]

/-- The DELETE loop aborts at the first failing revoke call: groups before
the failing one are fully revoked, the failing call itself is issued, and
nothing after it is attempted. -/
theorem run_revoke_groups_first_error (revoke : RevokeReq → Except Ec2Error Unit)
    (pre : List SecurityGroup) (bad : SecurityGroup) (rest : List SecurityGroup)
    (rule0 : IpRule) (rs : List IpRule) (g0 : String) (gs : List String)
    (e : Ec2Error)
    (hbadrules : bad.rules = rule0 :: rs) (hgr : rule0.grants = g0 :: gs)
    (hpre : ∀ sg ∈ pre, ∀ rule ∈ sg.rules, ∀ g ∈ rule.grants,
      revoke (revokeReqFor sg.id rule g) = .ok ())
    (hbad : revoke (revokeReqFor bad.id rule0 g0) = .error e) :
    run_revoke_groups revoke (pre ++ bad :: rest) =
      (pre.flatMap entriesOfGroup ++ [removedEntryFor rule0 g0],
       pre.flatMap reqsOfGroup ++ [revokeReqFor bad.id rule0 g0],
       some e) := by
  induction pre with
  | nil =>
      simp only [List.nil_append, List.flatMap_nil, run_revoke_groups,
        hbadrules, run_revoke_rules, hgr, run_revoke_grants, hbad]
  | cons sg pre ih =>
      have hsg : ∀ rule ∈ sg.rules, ∀ g ∈ rule.grants,
          revoke (revokeReqFor sg.id rule g) = .ok () := hpre sg (by simp)
      have hrest : ∀ x ∈ pre, ∀ rule ∈ x.rules, ∀ g ∈ rule.grants,
          revoke (revokeReqFor x.id rule g) = .ok () := by
        intro x hx rule hrule g hg
        exact hpre x (by simp [hx]) rule hrule g hg
      simp only [List.cons_append, run_revoke_groups,
        run_revoke_rules_ok_on revoke sg.id _ hsg, List.append_eq,
        ih hrest, List.flatMap_cons, entriesOfGroup, reqsOfGroup,
        List.append_assoc]

/-! ### Handler state across requests -/

/-- The per-handler fields set in `SGHandler.initialize` (lines 121-130);
`conn` is the lazily created EC2 client handle (opaque here). -/
structure SGHandlerState where
  region_name : String
  aws_access_key_id : String
  aws_secret_access_key : String
  target_security_group_ids : List String
  conn : Option Unit
deriving Repr, DecidableEq

/-- The state `SGHandler.initialize` establishes: configuration copied,
`self.conn = None`. -/
def initialHandlerState (region ak sk : String) (ids : List String) :
    SGHandlerState :=
  { region_name := region, aws_access_key_id := ak,
    aws_secret_access_key := sk, target_security_group_ids := ids,
    conn := none }

/-- `SGHandler.get_ec2_connection` (lines 132-138): create the client
handle if absent; only `self.conn` is written. -/
def get_ec2_connection (st : SGHandlerState) : SGHandlerState :=
  match st.conn with
  | none => { st with conn := some () }
  | some _ => st

/-- The three HTTP verbs the handler serves. -/
inductive Verb where
  | GET
  | POST
  | DELETE
deriving Repr, DecidableEq

/-- Effect of one request on the handler's own fields: GET lazily creates
`self.conn` via `get_ec2_connection`; POST and DELETE build a local
connection and write no handler field. No operation writes
`target_security_group_ids`. -/
def SGHandler.handleRequest (st : SGHandlerState) (v : Verb) : SGHandlerState :=
  match v with
  | .GET => get_ec2_connection st
  | .POST => st
  | .DELETE => st

theorem handleRequest_preserves_ids (st : SGHandlerState) (v : Verb) :
    (SGHandler.handleRequest st v).target_security_group_ids =
      st.target_security_group_ids := by
  obtain ⟨region, ak, sk, ids, conn⟩ := st
  cases v with
  | GET => cases conn <;> rfl
  | POST => rfl
  | DELETE => rfl

/-! ### Claims -/

/-- C1: for every configured group list and provider-reported rule set,
List (GET) responds 200 with a `results` array holding, for each group in
provider order, exactly one flattened entry per (rule, grant) pair, in
provider order, each of the form source = grant, protocol = rule protocol,
port = `<from> - <to>`. -/
theorem C1_list_flattens_rule_grant_pairs (sgs : List SecurityGroup) :
    SGHandler.get (.ok sgs) =
      { status := 200
        body := .ok (sgs.map (fun sg =>
          { name := sg.name
            id := sg.id
            rules := sg.rules.flatMap
              (fun rule => rule.grants.map (ruleEntry rule)) })) } := by
  simp only [SGHandler.get, parse_security_groups_eq_map]

/-- C2: for every determined caller IP and configured group list, Authorize
(POST) issues exactly one tcp/22-22 authorize request with source
`<ip>/32` per configured group, and on success responds 200 with message
`Your IP <ip> is appended to <ids>` where the group list is rendered in
Python list notation. -/
theorem C2_authorize_adds_tcp22_per_group
    (headers : List (String × String)) (peer_ip : Option String)
    (ip : String) (ids : List String) (sgs : List SecurityGroup)
    (auth : AuthReq → Except Ec2Error Unit)
    (hip : determine_remote_ip headers peer_ip = some ip)
    (hids : sgs.map SecurityGroup.id = ids)
    (hauth : ∀ r, auth r = .ok ()) :
    SGHandler.post headers peer_ip ids (.ok sgs) auth =
      { status := 200
        first_body :=
          { status_code := 200
            message := "Your IP " ++ ip ++ " is appended to " ++ pyListRepr ids }
        auth_requests := ids.map (fun gid =>
          { group_id := gid, ip_protocol := "tcp", from_port := 22,
            to_port := 22, cidr_ip := ip ++ "/32" }) } := by
  subst hids
  simp only [SGHandler.post, hip, pyFormat,
    run_authorize_loop_all_ok auth (ip ++ "/32") sgs hauth, List.map_map]
  rfl

theorem C2_witness :
    SGHandler.post [] (some "1.2.3.4") ["sg-1", "sg-2"]
        (.ok [{ name := "a", id := "sg-1", rules := [] },
              { name := "b", id := "sg-2", rules := [] }])
        (fun _ => .ok ()) =
      { status := 200
        first_body :=
          { status_code := 200
            message := "Your IP " ++ "1.2.3.4" ++ " is appended to " ++
              pyListRepr ["sg-1", "sg-2"] }
        auth_requests := ["sg-1", "sg-2"].map (fun gid =>
          { group_id := gid, ip_protocol := "tcp", from_port := 22,
            to_port := 22, cidr_ip := "1.2.3.4" ++ "/32" }) } :=
  C2_authorize_adds_tcp22_per_group [] (some "1.2.3.4") "1.2.3.4"
    ["sg-1", "sg-2"]
    [{ name := "a", id := "sg-1", rules := [] },
     { name := "b", id := "sg-2", rules := [] }]
    (fun _ => .ok ()) rfl rfl (fun _ => rfl)

/-- C3: on POST, if any request header's name case-insensitively equals
`X-Forwarded-For`, the handler uses that header's value as the caller IP —
the outcome is independent of the transport-level peer address; otherwise
it uses the peer address. -/
theorem C3_forwarded_header_overrides_peer
    (headers : List (String × String)) (peer_ip peer_ip2 : Option String)
    (ids : List String) (pg : Except Ec2Error (List SecurityGroup))
    (auth : AuthReq → Except Ec2Error Unit) :
    (headers.any (fun h => pyUpper h.fst = "X-FORWARDED-FOR") = true →
      determine_remote_ip headers peer_ip = headerGet headers "X-FORWARDED-FOR" ∧
      SGHandler.post headers peer_ip ids pg auth =
        SGHandler.post headers peer_ip2 ids pg auth) ∧
    (headers.any (fun h => pyUpper h.fst = "X-FORWARDED-FOR") = false →
      determine_remote_ip headers peer_ip = peer_ip) := by
  constructor
  · intro hany
    have h1 : determine_remote_ip headers peer_ip =
        headerGet headers "X-FORWARDED-FOR" := by
      simp [determine_remote_ip, hany]
    have h2 : determine_remote_ip headers peer_ip2 =
        headerGet headers "X-FORWARDED-FOR" := by
      simp [determine_remote_ip, hany]
    refine ⟨h1, ?_⟩
    simp only [SGHandler.post, h1, h2]
  · intro hany
    simp [determine_remote_ip, hany]

theorem C3_witness :
    determine_remote_ip [("x-forwarded-for", "9.9.9.9")] (some "5.5.5.5") =
      headerGet [("x-forwarded-for", "9.9.9.9")] "X-FORWARDED-FOR" ∧
    SGHandler.post [("x-forwarded-for", "9.9.9.9")] (some "5.5.5.5") []
        (.ok []) (fun _ => .ok ()) =
      SGHandler.post [("x-forwarded-for", "9.9.9.9")] (some "6.6.6.6") []
        (.ok []) (fun _ => .ok ()) :=
  (C3_forwarded_header_overrides_peer [("x-forwarded-for", "9.9.9.9")]
    (some "5.5.5.5") (some "6.6.6.6") [] (.ok []) (fun _ => .ok ())).1
    (by decide)

/-- C4: on POST with no forwarded header and no peer address, the
client-visible response is HTTP 500 with the fixed message, yet the
handler does not return early: it still fetches the groups and issues the
authorize calls (here with the interpolated CIDR of the missing IP). -/
theorem C4_missing_ip_responds_500_and_continues
    (headers : List (String × String)) (ids : List String)
    (sgs : List SecurityGroup) (auth : AuthReq → Except Ec2Error Unit)
    (hany : headers.any (fun h => pyUpper h.fst = "X-FORWARDED-FOR") = false)
    (hauth : ∀ r, auth r = .ok ()) :
    SGHandler.post headers none ids (.ok sgs) auth =
      { status := 500
        first_body :=
          { status_code := 500
            message := "Sorry, could not get Your IP Address." }
        auth_requests := sgs.map (authReqFor "None/32") } := by
  have hip : determine_remote_ip headers none = none := by
    simp [determine_remote_ip, hany]
  have hstr : pyFormat none ++ "/32" = "None/32" := rfl
  simp only [SGHandler.post, hip, hstr,
    run_authorize_loop_all_ok auth "None/32" sgs hauth]

theorem C4_witness :
    SGHandler.post [("Accept", "*")] none ["sg-1"]
        (.ok [{ name := "a", id := "sg-1",
                rules := [{ ip_protocol := "tcp", from_port := 80,
                            to_port := 80, grants := ["0.0.0.0/0"] }] }])
        (fun _ => .ok ()) =
      { status := 500
        first_body :=
          { status_code := 500
            message := "Sorry, could not get Your IP Address." }
        auth_requests :=
          [{ name := "a", id := "sg-1",
             rules := [{ ip_protocol := "tcp", from_port := 80,
                         to_port := 80,
                         grants := ["0.0.0.0/0"] }] }].map
            (authReqFor "None/32") } :=
  C4_missing_ip_responds_500_and_continues [("Accept", "*")] ["sg-1"]
    [{ name := "a", id := "sg-1",
       rules := [{ ip_protocol := "tcp", from_port := 80, to_port := 80,
                   grants := ["0.0.0.0/0"] }] }]
    (fun _ => .ok ()) (by decide) (fun _ => rfl)

/-- C5: Clear (DELETE) issues exactly one revoke call per (group, rule,
grant) triple, in enumeration order, records each removed entry's
protocol, ports and CIDR from the rule and grant (before its revoke call
in the loop body), and on success responds 200 with those entries in
order. -/
theorem C5_clear_revokes_and_reports_every_grant
    (sgs : List SecurityGroup) (revoke : RevokeReq → Except Ec2Error Unit)
    (h : ∀ r, revoke r = .ok ()) :
    SGHandler.delete (.ok sgs) revoke =
      { status := 200
        body := .ok (sgs.flatMap (fun sg =>
          sg.rules.flatMap (fun rule => rule.grants.map (removedEntryFor rule))))
        revoke_requests := sgs.flatMap (fun sg =>
          sg.rules.flatMap (fun rule =>
            rule.grants.map (revokeReqFor sg.id rule))) } :=
  delete_all_ok sgs revoke h

theorem C5_witness :
    SGHandler.delete
        (.ok [{ name := "a", id := "sg-1",
                rules := [{ ip_protocol := "tcp", from_port := 22,
                            to_port := 22, grants := ["1.2.3.4/32"] },
                          { ip_protocol := "udp", from_port := 53,
                            to_port := 53, grants := ["8.8.8.8/32"] }] }])
        (fun _ => .ok ()) =
      { status := 200
        body := .ok
          [{ ip_protocol := "tcp", from_port := 22, to_port := 22,
             cidr_ip := "1.2.3.4/32" },
           { ip_protocol := "udp", from_port := 53, to_port := 53,
             cidr_ip := "8.8.8.8/32" }]
        revoke_requests :=
          [{ group_id := "sg-1", ip_protocol := "tcp", from_port := 22,
             to_port := 22, cidr_ip := "1.2.3.4/32" },
           { group_id := "sg-1", ip_protocol := "udp", from_port := 53,
             to_port := 53, cidr_ip := "8.8.8.8/32" }] } := by
  have h := C5_clear_revokes_and_reports_every_grant
    [{ name := "a", id := "sg-1",
       rules := [{ ip_protocol := "tcp", from_port := 22, to_port := 22,
                   grants := ["1.2.3.4/32"] },
                 { ip_protocol := "udp", from_port := 53, to_port := 53,
                   grants := ["8.8.8.8/32"] }] }]
    (fun _ => .ok ()) (fun _ => rfl)
  simpa using h

/-- C6: every operation maps a provider rejection to HTTP 400 with body
status_code 400 and the provider's own message, and any other failure to
HTTP 500 with its string representation; in particular a rejection whose
message is `InvalidGroup.NotFound` yields exactly that 400 body. -/
theorem C6_two_tier_error_mapping (m d : String) (ids : List String)
    (headers : List (String × String)) (peer_ip : Option String)
    (ip : String) (auth : AuthReq → Except Ec2Error Unit)
    (revoke : RevokeReq → Except Ec2Error Unit)
    (hip : determine_remote_ip headers peer_ip = some ip) :
    SGHandler.get (.error (.responseError m)) =
      { status := 400, body := .err { status_code := 400, message := m } } ∧
    SGHandler.get (.error (.otherError d)) =
      { status := 500, body := .err { status_code := 500, message := d } } ∧
    SGHandler.post headers peer_ip ids (.error (.responseError m)) auth =
      { status := 400, first_body := { status_code := 400, message := m },
        auth_requests := [] } ∧
    SGHandler.post headers peer_ip ids (.error (.otherError d)) auth =
      { status := 500, first_body := { status_code := 500, message := d },
        auth_requests := [] } ∧
    SGHandler.delete (.error (.responseError m)) revoke =
      { status := 400, body := .err { status_code := 400, message := m },
        revoke_requests := [] } ∧
    SGHandler.delete (.error (.otherError d)) revoke =
      { status := 500, body := .err { status_code := 500, message := d },
        revoke_requests := [] } := by
  refine ⟨rfl, rfl, ?_, ?_, rfl, rfl⟩
  · simp only [SGHandler.post, hip, errorStatusMessage]
  · simp only [SGHandler.post, hip, errorStatusMessage]

theorem C6_witness :
    SGHandler.get (.error (.responseError "InvalidGroup.NotFound")) =
      { status := 400,
        body := .err { status_code := 400,
                       message := "InvalidGroup.NotFound" } } ∧
    SGHandler.get (.error (.otherError "boom")) =
      { status := 500,
        body := .err { status_code := 500, message := "boom" } } ∧
    SGHandler.post [] (some "1.2.3.4") ["sg-1"]
        (.error (.responseError "InvalidGroup.NotFound")) (fun _ => .ok ()) =
      { status := 400,
        first_body := { status_code := 400,
                        message := "InvalidGroup.NotFound" },
        auth_requests := [] } ∧
    SGHandler.post [] (some "1.2.3.4") ["sg-1"]
        (.error (.otherError "boom")) (fun _ => .ok ()) =
      { status := 500,
        first_body := { status_code := 500, message := "boom" },
        auth_requests := [] } ∧
    SGHandler.delete (.error (.responseError "InvalidGroup.NotFound"))
        (fun _ => .ok ()) =
      { status := 400,
        body := .err { status_code := 400,
                       message := "InvalidGroup.NotFound" },
        revoke_requests := [] } ∧
    SGHandler.delete (.error (.otherError "boom")) (fun _ => .ok ()) =
      { status := 500,
        body := .err { status_code := 500, message := "boom" },
        revoke_requests := [] } :=
  C6_two_tier_error_mapping "InvalidGroup.NotFound" "boom" ["sg-1"] []
    (some "1.2.3.4") "1.2.3.4" (fun _ => .ok ()) (fun _ => .ok ()) rfl

/-- C7: running Clear twice with no intervening mutation yields an empty
`results` array on the second call: the first Clear's revoke calls remove
every grant of every configured group from the provider state, so the
second enumerates none and issues no revoke call. -/
theorem C7_clear_twice_second_empty (sgs : List SecurityGroup) :
    SGHandler.delete (.ok (providerAfterClear sgs)) (fun _ => .ok ()) =
      { status := 200, body := .ok [], revoke_requests := [] } := by
  rw [delete_all_ok _ _ (fun _ => rfl)]
  have hent : (providerAfterClear sgs).flatMap entriesOfGroup = [] := by
    rw [List.flatMap_eq_nil_iff]
    intro sg hsg
    rw [entriesOfGroup, List.flatMap_eq_nil_iff]
    intro rule hrule
    rw [providerAfterClear_grants_nil sgs sg hsg rule hrule]
    rfl
  have hreq : (providerAfterClear sgs).flatMap reqsOfGroup = [] := by
    rw [List.flatMap_eq_nil_iff]
    intro sg hsg
    rw [reqsOfGroup, List.flatMap_eq_nil_iff]
    intro rule hrule
    rw [providerAfterClear_grants_nil sgs sg hsg rule hrule]
    rfl
  rw [hent, hreq]

/-- C8: for the mutating operations, a provider failure partway through
the configured groups aborts at the first error and produces a single
error response with no partial-success accounting: the calls already
issued for earlier groups stand (no compensating call follows), the
failing call is the last one issued, and for DELETE the entries recorded
before the failure are discarded in favour of the error body. -/
theorem C8_first_error_aborts_whole_operation
    (headers : List (String × String)) (peer_ip : Option String)
    (ip : String) (ids : List String)
    (pre : List SecurityGroup) (bad : SecurityGroup)
    (rest : List SecurityGroup) (e : Ec2Error)
    (auth : AuthReq → Except Ec2Error Unit)
    (pre2 : List SecurityGroup) (bad2 : SecurityGroup)
    (rest2 : List SecurityGroup) (rule0 : IpRule) (rs : List IpRule)
    (g0 : String) (gs : List String) (e2 : Ec2Error)
    (revoke : RevokeReq → Except Ec2Error Unit)
    (hip : determine_remote_ip headers peer_ip = some ip)
    (hpre : ∀ sg ∈ pre, auth (authReqFor (ip ++ "/32") sg) = .ok ())
    (hbad : auth (authReqFor (ip ++ "/32") bad) = .error e)
    (hbadrules : bad2.rules = rule0 :: rs) (hgr : rule0.grants = g0 :: gs)
    (hpre2 : ∀ sg ∈ pre2, ∀ rule ∈ sg.rules, ∀ g ∈ rule.grants,
      revoke (revokeReqFor sg.id rule g) = .ok ())
    (hbad2 : revoke (revokeReqFor bad2.id rule0 g0) = .error e2) :
    SGHandler.post headers peer_ip ids (.ok (pre ++ bad :: rest)) auth =
      { status := (errorStatusMessage e).status_code
        first_body := errorStatusMessage e
        auth_requests := (pre ++ [bad]).map (authReqFor (ip ++ "/32")) } ∧
    SGHandler.delete (.ok (pre2 ++ bad2 :: rest2)) revoke =
      { status := (errorStatusMessage e2).status_code
        body := .err (errorStatusMessage e2)
        revoke_requests :=
          pre2.flatMap reqsOfGroup ++ [revokeReqFor bad2.id rule0 g0] } := by
  constructor
  · simp only [SGHandler.post, hip, pyFormat,
      run_authorize_loop_first_error auth (ip ++ "/32") pre bad rest e hpre hbad]
  · simp only [SGHandler.delete,
      run_revoke_groups_first_error revoke pre2 bad2 rest2 rule0 rs g0 gs e2
        hbadrules hgr hpre2 hbad2]

theorem C8_witness :
    SGHandler.post [] (some "1.2.3.4") ["sg-1", "sg-2"]
        (.ok [{ name := "a", id := "sg-1", rules := [] },
              { name := "b", id := "sg-2", rules := [] }])
        (fun r => if r.group_id = "sg-2" then
            .error (.responseError "InvalidGroup.NotFound") else .ok ()) =
      { status := 400
        first_body := { status_code := 400,
                        message := "InvalidGroup.NotFound" }
        auth_requests :=
          [{ group_id := "sg-1", ip_protocol := "tcp", from_port := 22,
             to_port := 22, cidr_ip := "1.2.3.4" ++ "/32" },
           { group_id := "sg-2", ip_protocol := "tcp", from_port := 22,
             to_port := 22, cidr_ip := "1.2.3.4" ++ "/32" }] } ∧
    SGHandler.delete
        (.ok [{ name := "a", id := "sg-1",
                rules := [{ ip_protocol := "tcp", from_port := 22,
                            to_port := 22, grants := ["1.2.3.4/32"] }] },
              { name := "b", id := "sg-2",
                rules := [{ ip_protocol := "udp", from_port := 53,
                            to_port := 53, grants := ["8.8.8.8/32"] }] }])
        (fun r => if r.group_id = "sg-2" then
            .error (.otherError "socket closed") else .ok ()) =
      { status := 500
        body := .err { status_code := 500, message := "socket closed" }
        revoke_requests :=
          [{ group_id := "sg-1", ip_protocol := "tcp", from_port := 22,
             to_port := 22, cidr_ip := "1.2.3.4/32" }] ++
          [{ group_id := "sg-2", ip_protocol := "udp", from_port := 53,
             to_port := 53, cidr_ip := "8.8.8.8/32" }] } := by
  have h := C8_first_error_aborts_whole_operation [] (some "1.2.3.4")
    "1.2.3.4" ["sg-1", "sg-2"]
    [{ name := "a", id := "sg-1", rules := [] }]
    { name := "b", id := "sg-2", rules := [] } []
    (.responseError "InvalidGroup.NotFound")
    (fun r => if r.group_id = "sg-2" then
        .error (.responseError "InvalidGroup.NotFound") else .ok ())
    [{ name := "a", id := "sg-1",
       rules := [{ ip_protocol := "tcp", from_port := 22, to_port := 22,
                   grants := ["1.2.3.4/32"] }] }]
    { name := "b", id := "sg-2",
      rules := [{ ip_protocol := "udp", from_port := 53, to_port := 53,
                  grants := ["8.8.8.8/32"] }] }
    [] { ip_protocol := "udp", from_port := 53, to_port := 53,
         grants := ["8.8.8.8/32"] } [] "8.8.8.8/32" []
    (.otherError "socket closed")
    (fun r => if r.group_id = "sg-2" then
        .error (.otherError "socket closed") else .ok ())
    rfl
    (by intro sg hsg; rw [List.mem_singleton] at hsg; subst hsg; rfl)
    rfl rfl rfl
    (by
      intro sg hsg rule hrule g hg
      rw [List.mem_singleton] at hsg
      subst hsg
      rw [List.mem_singleton] at hrule
      subst hrule
      rw [List.mem_singleton] at hg
      subst hg
      rfl)
    rfl
  simpa using h

/-- C9: no operation writes the configured target list: after any sequence
of GET, POST and DELETE requests, the handler's
`target_security_group_ids` equals the list set at initialization. -/
theorem C9_target_ids_never_change (st : SGHandlerState) (vs : List Verb) :
    (vs.foldl SGHandler.handleRequest st).target_security_group_ids =
      st.target_security_group_ids := by
  induction vs generalizing st with
  | nil => rfl
  | cons v vs ih =>
      rw [List.foldl_cons, ih]
      exact handleRequest_preserves_ids st v

/-- C10: when no caller IP can be determined on POST, every authorize call
still issued carries the literal source CIDR `None/32` (Python string
interpolation of None), and calls are issued whenever the provider
returned any group — there is no guard. -/
theorem C10_null_ip_yields_none_cidr
    (headers : List (String × String)) (peer_ip : Option String)
    (ids : List String) (sgs : List SecurityGroup)
    (auth : AuthReq → Except Ec2Error Unit)
    (hip : determine_remote_ip headers peer_ip = none) :
    (∀ r ∈ (SGHandler.post headers peer_ip ids (.ok sgs) auth).auth_requests,
      r.cidr_ip = "None/32") ∧
    ((SGHandler.post headers peer_ip ids (.ok sgs) auth).auth_requests = [] ↔
      sgs = []) := by
  have hstr : pyFormat none ++ "/32" = "None/32" := rfl
  constructor
  · intro r hr
    simp only [SGHandler.post, hip, hstr] at hr
    exact run_authorize_loop_cidr auth "None/32" sgs r hr
  · simp only [SGHandler.post, hip, hstr]
    exact run_authorize_loop_nil_iff auth "None/32" sgs

theorem C10_witness :
    (∀ r ∈ (SGHandler.post [] none ["sg-1"]
        (.ok [{ name := "a", id := "sg-1", rules := [] }])
        (fun _ => .ok ())).auth_requests, r.cidr_ip = "None/32") ∧
    ((SGHandler.post [] none ["sg-1"]
        (.ok [{ name := "a", id := "sg-1", rules := [] }])
        (fun _ => .ok ())).auth_requests = [] ↔
      [{ name := "a", id := "sg-1", rules := [] }] =
        ([] : List SecurityGroup)) :=
  C10_null_ip_yields_none_cidr [] none ["sg-1"]
    [{ name := "a", id := "sg-1", rules := [] }] (fun _ => .ok ()) rfl

end SimpleStepper
